import Mathlib

/-!
Verification development for the gcvit-tf attention and embedding layers
(`src/gcvit/layers/attention.py`, `src/gcvit/layers/embedding.py`).

The tensor computations relevant to the specified properties are embedded
shallowly: index tables become integer-valued functions, shape-level
semantics of the calls become `Option`-valued pipelines over shape lists,
and the patch-embedding forward pass becomes a composition of concrete
rational-valued grid functions.
-/

namespace GCViT

/-! ## Relative position index (WindowAttention.build, attention.py lines 30-42)

The source builds, for a window of size `W × W`:
  coords_h = tf.range(W); coords_w = tf.range(W)
  coords = tf.stack(tf.meshgrid(coords_h, coords_w, indexing='ij'), axis=0)
  coords_flatten = tf.reshape(coords, [2, -1])
  relative_coords = coords_flatten[:, :, None] - coords_flatten[:, None, :]
  relative_coords = tf.transpose(relative_coords, perm=[1, 2, 0])
  relative_coords_xx = (relative_coords[:, :, 0] + W - 1) * (2*W - 1)
  relative_coords_yy = (relative_coords[:, :, 1] + W - 1)
  relative_position_index = relative_coords_xx + relative_coords_yy
-/

/-- `tf.meshgrid(range W, range W, indexing='ij')` stacked on axis 0:
channel 0 holds the row coordinate, channel 1 the column coordinate. -/
def coords (c i j : ℕ) : ℕ := if c = 0 then i else j

/-- `tf.reshape(coords, [2, -1])`: row-major flattening of each `[W, W]`
channel, so flat position `p` corresponds to grid cell `(p / W, p % W)`. -/
def coordsFlatten (W c p : ℕ) : ℕ := coords c (p / W) (p % W)

/-- `coords_flatten[:, :, None] - coords_flatten[:, None, :]`, already
transposed by `perm=[1, 2, 0]`: entry `(p, q, c)` is the signed coordinate
difference on axis `c`. -/
def relativeCoords (W p q c : ℕ) : ℤ :=
  (coordsFlatten W c p : ℤ) - (coordsFlatten W c q : ℤ)

/-- The relative position index matrix of `WindowAttention.build`:
`(Δrow + W - 1) * (2W - 1) + (Δcol + W - 1)`. -/
def relativePositionIndex (W p q : ℕ) : ℤ :=
  (relativeCoords W p q 0 + W - 1) * (2 * W - 1) + (relativeCoords W p q 1 + W - 1)

/-- Shape of `relative_position_bias_table` added in `WindowAttention.build`:
`[(2*W - 1) * (2*W - 1), num_heads]`. -/
def biasTableShape (W numHeads : ℕ) : List ℕ :=
  [(2 * W - 1) * (2 * W - 1), numHeads]

/-! ### The verbatim duplicate in WindowAttentionGlobal.build (lines 102-120)

`WindowAttentionGlobal.build` repeats the same index construction line for
line; it is transcribed separately so that the two variants can be compared. -/

/-- Stacked meshgrid of `WindowAttentionGlobal.build`. -/
def coordsG (c i j : ℕ) : ℕ := if c = 0 then i else j

/-- Row-major flattening in `WindowAttentionGlobal.build`. -/
def coordsFlattenG (W c p : ℕ) : ℕ := coordsG c (p / W) (p % W)

/-- Signed coordinate differences in `WindowAttentionGlobal.build`. -/
def relativeCoordsG (W p q c : ℕ) : ℤ :=
  (coordsFlattenG W c p : ℤ) - (coordsFlattenG W c q : ℤ)

/-- The relative position index matrix of `WindowAttentionGlobal.build`. -/
def relativePositionIndexG (W p q : ℕ) : ℤ :=
  (relativeCoordsG W p q 0 + W - 1) * (2 * W - 1) + (relativeCoordsG W p q 1 + W - 1)

/-- Shape of `relative_position_bias_table` in `WindowAttentionGlobal.build`. -/
def biasTableShapeG (W numHeads : ℕ) : List ℕ :=
  [(2 * W - 1) * (2 * W - 1), numHeads]

/-! ## Scale selection (WindowAttention.build, line 21)

`self.scale = self.qk_scale or head_dim ** -0.5`.  Python `or` returns its
left operand when that operand is truthy; both `None` and `0.0` are falsy.
`qk_scale = None` is modelled as `none`.  `defaultScale` stands for the value
of `head_dim ** -0.5`, which is positive for every `head_dim ≥ 1`; for
`head_dim = 4` it is exactly `1/2` (also exact in binary floating point). -/
def scale (qkScale : Option ℚ) (defaultScale : ℚ) : ℚ :=
  match qkScale with
  | none => defaultScale
  | some s => if s = 0 then defaultScale else s

/-! ## Constructor configuration and get_config (lines 8-17 and 71-81)

`__init__` stores every constructor argument unchanged except `window_size`,
which is wrapped: `window_size = (window_size, window_size)` whatever value
was passed.  `get_config` returns the stored fields.  Python config values
for `window_size` may be an int or a nested tuple, modelled by `ConfigVal`. -/

inductive ConfigVal where
  | int : ℕ → ConfigVal
  | pair : ConfigVal → ConfigVal → ConfigVal
deriving DecidableEq, Repr

structure WAttnConfig where
  window_size : ConfigVal
  num_heads : ℕ
  qkv_bias : Bool
  qk_scale : Option ℚ
  attn_dropout : ℚ
  proj_dropout : ℚ
deriving DecidableEq

/-- `WindowAttention.__init__` (identical in `WindowAttentionGlobal`): the
stored configuration state after construction. -/
def windowAttentionInit (window_size : ConfigVal) (num_heads : ℕ)
    (qkv_bias : Bool) (qk_scale : Option ℚ) (attn_dropout proj_dropout : ℚ) :
    WAttnConfig :=
  { window_size := ConfigVal.pair window_size window_size
    num_heads := num_heads
    qkv_bias := qkv_bias
    qk_scale := qk_scale
    attn_dropout := attn_dropout
    proj_dropout := proj_dropout }

/-- `get_config`: serializes exactly the stored fields. -/
def getConfig (layer : WAttnConfig) : WAttnConfig := layer

/-- Reconstruction `WindowAttention(**config)`: `__init__` applied to the
serialized fields. -/
def fromConfig (c : WAttnConfig) : WAttnConfig :=
  windowAttentionInit c.window_size c.num_heads c.qkv_bias c.qk_scale
    c.attn_dropout c.proj_dropout

/-! ## Shape-level semantics of the attention calls

The calls are modelled at the level of tensor shapes: each TensorFlow op
either produces the shape of its result or fails (`none`), exactly when the
op would raise.  `tf.reshape` raises when the element counts differ; this is
the failure mode behind both shape contracts (C2, C4). -/

/-- `tf.keras.layers.Dense(units)`: replaces the last axis by `units`. -/
def denseLast (units : ℕ) (s : List ℕ) : Option (List ℕ) :=
  if s = [] then none else some (s.dropLast ++ [units])

/-- `tf.reshape` to an explicit target shape: succeeds iff element counts
agree. -/
def reshapeTF (s target : List ℕ) : Option (List ℕ) :=
  if s.prod = target.prod then some target else none

/-- `tf.transpose` with permutation `perm`. -/
def transposeTF (s perm : List ℕ) : Option (List ℕ) :=
  if perm.length = s.length then some (perm.map fun i => s.getD i 0) else none

/-- `tf.unstack(_, axis=0)`: shape of each resulting tensor. -/
def unstack0 (s : List ℕ) : Option (List ℕ) :=
  match s with
  | [] => none
  | _ :: rest => some rest

/-- `@` on rank-4 tensors `[b, h, m, k] @ [b, h, k, n]`. -/
def matmulTF (s t : List ℕ) : Option (List ℕ) :=
  match s, t with
  | [b1, h1, m, k1], [b2, h2, k2, n] =>
      if b1 = b2 ∧ h1 = h2 ∧ k1 = k2 then some [b1, h1, m, n] else none
  | _, _ => none

/-- `attn + relative_position_bias[tf.newaxis,]`: the rank-3 bias broadcasts
over the batch axis of the rank-4 logits when the trailing axes agree.
(TensorFlow would additionally broadcast axes of size 1; that case never
arises in the theorems below, which fail earlier in the pipeline.) -/
def broadcastAddBias (s bias : List ℕ) : Option (List ℕ) :=
  match s, bias with
  | [b1, h, m, n], [h2, m2, n2] =>
      if h = h2 ∧ m = m2 ∧ n = n2 then some [b1, h, m, n] else none
  | _, _ => none

/-- Shape semantics of `WindowAttention.call` (attention.py lines 50-70) on an
input of shape `[B_, N, C]`, with the layer built at channel dimension `C`
(so `self.qkv = Dense(C * 3)` and `self.proj = Dense(C)`). -/
def windowAttentionCall (W numHeads B_ N C : ℕ) : Option (List ℕ) := do
  -- qkv = self.qkv(inputs)                        : Dense(dim * 3)
  let qkv ← denseLast (C * 3) [B_, N, C]
  -- qkv = tf.reshape(qkv, [B_, N, 3, num_heads, C // num_heads])
  let qkv ← reshapeTF qkv [B_, N, 3, numHeads, C / numHeads]
  -- qkv = tf.transpose(qkv, [2, 0, 3, 1, 4])
  let qkv ← transposeTF qkv [2, 0, 3, 1, 4]
  -- q, k, v = tf.unstack(qkv, axis=0)  (all three share one shape)
  let q ← unstack0 qkv
  let k := q
  let v := q
  -- q = q * self.scale  (shape preserved)
  -- attn = q @ tf.transpose(k, perm=[0, 1, 3, 2])
  let kT ← transposeTF k [0, 1, 3, 2]
  let attn ← matmulTF q kT
  -- gather(bias_table [(2W-1)^2, nh], flat index [W^2 * W^2]) -> [W^2 * W^2, nh],
  -- reshaped to [W^2, W^2, -1] (the -1 resolves to nh), transposed to [nh, W^2, W^2]
  let rpb ← reshapeTF [W * W * (W * W), numHeads] [W * W, W * W, numHeads]
  let rpb ← transposeTF rpb [2, 0, 1]
  -- attn = attn + relative_position_bias[tf.newaxis,]; softmax and attn_drop
  -- preserve the shape
  let attn ← broadcastAddBias attn rpb
  -- x = tf.transpose(attn @ v, perm=[0, 2, 1, 3])
  let x ← matmulTF attn v
  let x ← transposeTF x [0, 2, 1, 3]
  -- x = tf.reshape(x, shape=[B_, N, C]); x = self.proj(x); proj_drop
  let x ← reshapeTF x [B_, N, C]
  let x ← denseLast C x
  some x

/-- Shape semantics of `WindowAttentionGlobal.call` (lines 127-160) on local
input `[B_, N, C]` and global query `[B, N, C]`, with `self.qkv = Dense(C * 2)`. -/
def windowAttentionGlobalCall (W numHeads B_ N C B : ℕ) : Option (List ℕ) := do
  -- kv = self.qkv(inputs)                         : Dense(dim * 2)
  let kv ← denseLast (C * 2) [B_, N, C]
  -- kv = tf.reshape(kv, [B_, N, 2, num_heads, C // num_heads])
  let kv ← reshapeTF kv [B_, N, 2, numHeads, C / numHeads]
  -- kv = tf.transpose(kv, [2, 0, 3, 1, 4]); k, v = tf.unstack(kv, axis=0)
  let kv ← transposeTF kv [2, 0, 3, 1, 4]
  let k ← unstack0 kv
  let v := k
  -- q_global = tf.repeat(q_global, repeats=B_ // B, axis=0):
  -- shape [B * (B_ // B), N, C]
  -- q = tf.reshape(q_global, shape=[B_, N, num_heads, C // num_heads])
  let q ← reshapeTF [B * (B_ / B), N, C] [B_, N, numHeads, C / numHeads]
  -- q = tf.transpose(q, perm=[0, 2, 1, 3]); q = q * self.scale
  let q ← transposeTF q [0, 2, 1, 3]
  -- attn = q @ tf.transpose(k, perm=[0, 1, 3, 2])
  let kT ← transposeTF k [0, 1, 3, 2]
  let attn ← matmulTF q kT
  let rpb ← reshapeTF [W * W * (W * W), numHeads] [W * W, W * W, numHeads]
  let rpb ← transposeTF rpb [2, 0, 1]
  let attn ← broadcastAddBias attn rpb
  let x ← matmulTF attn v
  let x ← transposeTF x [0, 2, 1, 3]
  let x ← reshapeTF x [B_, N, C]
  let x ← denseLast C x
  some x

/-! ## Global query replication (WindowAttentionGlobal.call, lines 132-135)

  q_global = tf.repeat(q_global, repeats=B_//B, axis=0)
  q = tf.reshape(q_global, shape=[B_, N, num_heads, C // num_heads])
  q = tf.transpose(q, perm=[0, 2, 1, 3])
  q = q * self.scale

The value-level content is modelled with one element per batch slice: each
image's global query is a function of (token, channel). -/

/-- `tf.repeat(x, repeats=r, axis=0)`: every batch slice repeated `r` times
consecutively. -/
def repeatAxis0 {α : Type} (xs : List α) (r : ℕ) : List α :=
  (xs.map (List.replicate r)).flatten

/-- The batch-slice action of `tf.reshape([B_, N, C] -> [B_, N, nh, hd])`:
the channel axis `c` splits row-major into `(h, d)` with `c = h * hd + d`. -/
def reshapeSliceHeads (headDim : ℕ) (s : ℕ → ℕ → ℚ) : ℕ → ℕ → ℕ → ℚ :=
  fun n h d => s n (h * headDim + d)

/-- The batch-slice action of `tf.transpose(_, perm=[0, 2, 1, 3])`. -/
def transposeSlice0213 (t : ℕ → ℕ → ℕ → ℚ) : ℕ → ℕ → ℕ → ℚ :=
  fun h n d => t n h d

/-- The whole query path of `WindowAttentionGlobal.call`: repeat, reshape,
transpose, multiply by the scale.  No learned projection touches the query. -/
def globalQueryPath (qGlobal : List (ℕ → ℕ → ℚ)) (r headDim : ℕ) (scale : ℚ) :
    List (ℕ → ℕ → ℕ → ℚ) :=
  (((repeatAxis0 qGlobal r).map (reshapeSliceHeads headDim)).map
      transposeSlice0213).map (fun t h n d => scale * t h n d)

/-- Width of the K/V projection in `WindowAttentionGlobal.build`:
`self.qkv = tf.keras.layers.Dense(dim * 2, ...)`. -/
def globalKVUnits (dim : ℕ) : ℕ := dim * 2

/-! ## PatchEmbed (embedding.py)

  build: self.pad = ZeroPadding2D(1); self.proj = Conv2D(dim, kernel_size=3,
         strides=2); self.conv_down = ReduceSize(keep_dim=True)
  call:  x = self.proj(self.pad(inputs)); x = self.conv_down(x); return x

Images are channels-last functions of (row, col, channel) with spatial extent
`H × Wd`; the external `ReduceSize` collaborator is an abstract function. -/

/-- `tf.keras.layers.ZeroPadding2D(1)` on an `H × Wd` image: one zero pixel
on each spatial edge; the original pixel `(i, j)` moves to `(i + 1, j + 1)`. -/
def zeroPad2D (H Wd : ℕ) (x : ℕ → ℕ → ℕ → ℚ) : ℕ → ℕ → ℕ → ℚ :=
  fun i j c => if 1 ≤ i ∧ i ≤ H ∧ 1 ≤ j ∧ j ≤ Wd then x (i - 1) (j - 1) c else 0

/-- `tf.keras.layers.Conv2D(dim, kernel_size=3, strides=2)` (default VALID
padding, channels-last): output pixel `(i, j)`, channel `d < dim`, from the
`3 × 3` receptive field anchored at `(2i, 2j)` over `Cin` input channels. -/
def conv2D3x3s2 (Cin : ℕ) (w : ℕ → ℕ → ℕ → ℕ → ℚ) (bias : ℕ → ℚ)
    (x : ℕ → ℕ → ℕ → ℚ) : ℕ → ℕ → ℕ → ℚ :=
  fun i j d =>
    (∑ ki ∈ Finset.range 3, ∑ kj ∈ Finset.range 3, ∑ c ∈ Finset.range Cin,
      x (2 * i + ki) (2 * j + kj) c * w ki kj c d) + bias d

/-- `PatchEmbed.call`: `self.conv_down(self.proj(self.pad(inputs)))`, with the
external `ReduceSize` block abstracted as `convDown`. -/
def patchEmbedCall (convDown : (ℕ → ℕ → ℕ → ℚ) → (ℕ → ℕ → ℕ → ℚ))
    (H Wd Cin : ℕ) (w : ℕ → ℕ → ℕ → ℕ → ℚ) (bias : ℕ → ℚ)
    (x : ℕ → ℕ → ℕ → ℚ) : ℕ → ℕ → ℕ → ℚ :=
  convDown (conv2D3x3s2 Cin w bias (zeroPad2D H Wd x))

/-- A concrete `6 × 6` single-channel test image. -/
def testImage : ℕ → ℕ → ℕ → ℚ := fun a b c => (a : ℚ) + b + c

/-- A concrete all-ones convolution kernel. -/
def onesKernel : ℕ → ℕ → ℕ → ℕ → ℚ := fun _ _ _ _ => 1

/-- A concrete zero bias vector. -/
def zeroBias : ℕ → ℚ := fun _ => 0

/-! ## Helper lemmas -/

lemma relativePositionIndex_eq (W p q : ℕ) :
    relativePositionIndex W p q =
      ((p / W : ℕ) - (q / W : ℕ) + (W : ℤ) - 1) * (2 * W - 1)
        + ((p % W : ℕ) - (q % W : ℕ) + (W : ℤ) - 1) := by
  simp [relativePositionIndex, relativeCoords, coordsFlatten, coords]

lemma repeatAxis0_cons {α : Type} (x : α) (xs : List α) (r : ℕ) :
    repeatAxis0 (x :: xs) r = List.replicate r x ++ repeatAxis0 xs r := by
  simp [repeatAxis0]

lemma repeatAxis0_getElem {α : Type} (xs : List α) (r b w : ℕ)
    (hw : w < r) (hb : b < xs.length) :
    (repeatAxis0 xs r)[b * r + w]? = xs[b]? := by
  induction xs generalizing b with
  | nil => exact absurd hb (Nat.not_lt_zero b)
  | cons x xs ih =>
    rw [repeatAxis0_cons]
    cases b with
    | zero =>
      have hlen : 0 * r + w < (List.replicate r x).length := by
        simpa using hw
      rw [List.getElem?_append, if_pos hlen]
      simp [List.getElem?_replicate, hw]
    | succ b =>
      have hr : r ≤ (b + 1) * r := Nat.le_mul_of_pos_left r (Nat.succ_pos b)
      have hlen : ¬ (b + 1) * r + w < (List.replicate r x).length := by
        simp
        omega
      rw [List.getElem?_append, if_neg hlen]
      have harith : (b + 1) * r + w - (List.replicate r x).length = b * r + w := by
        simp [Nat.succ_mul]
        omega
      rw [harith]
      have hb' : b < xs.length := by simpa using Nat.lt_of_succ_lt_succ hb
      simpa using ih b hb'

end GCViT

/-! ## Claim theorems -/

/-- C1: for every window size `W ≥ 1` (including `W = 1`) and every pair of
flattened grid positions `p q < W²` (so the index matrix has shape `[W², W²]`),
the entry equals `(row_p - row_q + W - 1) * (2W - 1) + (col_p - col_q + W - 1)`
and lies in `[0, (2W - 1)² - 1]`. -/
theorem GCViT.relativePositionIndex_formula_and_range
    (W p q : ℕ) (hW : 1 ≤ W) (hp : p < W * W) (hq : q < W * W) :
    relativePositionIndex W p q =
      ((p / W : ℕ) - (q / W : ℕ) + (W : ℤ) - 1) * (2 * W - 1)
        + ((p % W : ℕ) - (q % W : ℕ) + (W : ℤ) - 1)
    ∧ 0 ≤ relativePositionIndex W p q
    ∧ relativePositionIndex W p q ≤ (2 * W - 1) ^ 2 - 1 := by
  have hd1 : p / W < W := Nat.div_lt_of_lt_mul hp
  have hd2 : q / W < W := Nat.div_lt_of_lt_mul hq
  have hm1 : p % W < W := Nat.mod_lt _ (by omega)
  have hm2 : q % W < W := Nat.mod_lt _ (by omega)
  have h2W : (0 : ℤ) ≤ 2 * W - 1 := by omega
  have n1 : (0 : ℤ) ≤ ((p / W : ℕ) : ℤ) := Int.natCast_nonneg _
  have n2 : (0 : ℤ) ≤ ((q / W : ℕ) : ℤ) := Int.natCast_nonneg _
  have n3 : (0 : ℤ) ≤ ((p % W : ℕ) : ℤ) := Int.natCast_nonneg _
  have n4 : (0 : ℤ) ≤ ((q % W : ℕ) : ℤ) := Int.natCast_nonneg _
  have b1 : (0 : ℤ) ≤ (p / W : ℕ) - (q / W : ℕ) + (W : ℤ) - 1 := by omega
  have b2 : ((p / W : ℕ) : ℤ) - (q / W : ℕ) + (W : ℤ) - 1 ≤ 2 * W - 2 := by omega
  have b3 : (0 : ℤ) ≤ (p % W : ℕ) - (q % W : ℕ) + (W : ℤ) - 1 := by omega
  have b4 : ((p % W : ℕ) : ℤ) - (q % W : ℕ) + (W : ℤ) - 1 ≤ 2 * W - 2 := by omega
  refine ⟨relativePositionIndex_eq W p q, ?_, ?_⟩ <;> rw [relativePositionIndex_eq]
  · nlinarith [mul_nonneg b1 h2W, b3]
  · nlinarith [mul_le_mul_of_nonneg_right b2 h2W, b4]

/-- C1 witness: the degenerate window size `W = 1` satisfies the property at
the only pair of positions `(0, 0)` without error. -/
theorem GCViT.relativePositionIndex_formula_and_range_witness :
    1 ≤ 1 ∧ 0 < 1 * 1 ∧
      (GCViT.relativePositionIndex 1 0 0 =
        ((0 / 1 : ℕ) - (0 / 1 : ℕ) + (1 : ℤ) - 1) * (2 * 1 - 1)
          + ((0 % 1 : ℕ) - (0 % 1 : ℕ) + (1 : ℤ) - 1)
      ∧ 0 ≤ GCViT.relativePositionIndex 1 0 0
      ∧ GCViT.relativePositionIndex 1 0 0 ≤ (2 * 1 - 1) ^ 2 - 1) :=
  ⟨le_refl 1, by decide,
    GCViT.relativePositionIndex_formula_and_range 1 0 0 (le_refl 1)
      (by decide) (by decide)⟩

/-- C7: every diagonal entry of the relative position index matrix equals the
zero-offset row `(W - 1) * (2W - 1) + (W - 1)`; in particular for `W = 2` every
diagonal entry equals `4`. -/
theorem GCViT.relativePositionIndex_diag (W p p2 : ℕ) :
    GCViT.relativePositionIndex W p p =
      ((W : ℤ) - 1) * (2 * W - 1) + ((W : ℤ) - 1)
    ∧ GCViT.relativePositionIndex 2 p2 p2 = 4 := by
  constructor
  · simp [GCViT.relativePositionIndex, GCViT.relativeCoords]
  · simp [GCViT.relativePositionIndex, GCViT.relativeCoords]

/-- C10: for every window size and every pair of flattened positions, swapping
the pair gives the point-reflected table row:
`index(p, q) + index(q, p) = (2W - 1)² - 1`. -/
theorem GCViT.relativePositionIndex_point_reflection (W p q : ℕ) :
    GCViT.relativePositionIndex W p q + GCViT.relativePositionIndex W q p =
      (2 * (W : ℤ) - 1) ^ 2 - 1 := by
  simp only [GCViT.relativePositionIndex, GCViT.relativeCoords]
  ring

/-- C9: the index construction duplicated verbatim in `WindowAttention.build`
and `WindowAttentionGlobal.build` is extensionally the same function of the
window size, and the two bias tables have the same shape
`[(2W - 1)², num_heads]`. -/
theorem GCViT.index_construction_duplicates_agree :
    (∀ W p q : ℕ,
        GCViT.relativePositionIndex W p q = GCViT.relativePositionIndexG W p q)
    ∧ (∀ W numHeads : ℕ,
        GCViT.biasTableShape W numHeads = GCViT.biasTableShapeG W numHeads
          ∧ GCViT.biasTableShape W numHeads
              = [(2 * W - 1) * (2 * W - 1), numHeads]) := by
  refine ⟨fun W p q => ?_, fun W numHeads => ⟨rfl, rfl⟩⟩
  simp [GCViT.relativePositionIndex, GCViT.relativePositionIndexG,
    GCViT.relativeCoords, GCViT.relativeCoordsG,
    GCViT.coordsFlatten, GCViT.coordsFlattenG, GCViT.coords, GCViT.coordsG]

/-- C3 (code bug): the configuration round-trip does NOT reproduce identical
fields.  For the layer constructed with `window_size = 7`, the stored field is
the tuple `(7, 7)`; reconstructing from `get_config` re-wraps it, giving
`((7, 7), (7, 7)) ≠ (7, 7)`.  All other five fields are reproduced. -/
theorem GCViT.getConfig_roundtrip_window_size_bug :
    (GCViT.fromConfig (GCViT.getConfig
        (GCViT.windowAttentionInit (GCViT.ConfigVal.int 7) 4 true none 0 0))).window_size
      ≠ (GCViT.windowAttentionInit (GCViT.ConfigVal.int 7) 4 true none 0 0).window_size
    ∧ GCViT.fromConfig (GCViT.getConfig
        (GCViT.windowAttentionInit (GCViT.ConfigVal.int 7) 4 true none 0 0))
      = { window_size := GCViT.ConfigVal.pair
            (GCViT.ConfigVal.pair (GCViT.ConfigVal.int 7) (GCViT.ConfigVal.int 7))
            (GCViT.ConfigVal.pair (GCViT.ConfigVal.int 7) (GCViT.ConfigVal.int 7))
          num_heads := 4
          qkv_bias := true
          qk_scale := none
          attn_dropout := 0
          proj_dropout := 0 } := by
  refine ⟨by decide, rfl⟩

/-- C6 counterexample: with `qk_scale` provided as `0` and `head_dim = 4`
(default `head_dim ** -0.5 = 1/2` exactly), the scale is `1/2`, not the
provided `0`: the claim "equals qk_scale ... including 0" is false. -/
theorem GCViT.scale_zero_qk_counterexample :
    GCViT.scale (some 0) (1 / 2) = 1 / 2 ∧ (1 / 2 : ℚ) ≠ 0 := by
  constructor
  · rfl
  · norm_num

/-- C6 (amended): the scale equals `qk_scale` whenever it is provided and
nonzero (Python truthiness); when `qk_scale` is absent (`None`) or provided
as `0`, the scale equals the default `head_dim ** -0.5`. -/
theorem GCViT.scale_selection (q : Option ℚ) (d : ℚ) :
    (∀ s : ℚ, q = some s → s ≠ 0 → GCViT.scale q d = s)
    ∧ ((q = none ∨ q = some 0) → GCViT.scale q d = d) := by
  constructor
  · rintro s rfl hs
    simp [GCViT.scale, hs]
  · rintro (rfl | rfl) <;> simp [GCViT.scale]

/-- C6 witness: a provided nonzero `qk_scale = 3` is used verbatim, and an
absent `qk_scale` falls back to the default. -/
theorem GCViT.scale_selection_witness :
    GCViT.scale (some 3) (1 / 2) = 3 ∧ GCViT.scale none (1 / 2) = 1 / 2 :=
  ⟨(GCViT.scale_selection (some 3) (1 / 2)).1 3 rfl (by norm_num),
   (GCViT.scale_selection none (1 / 2)).2 (Or.inl rfl)⟩

/-- C2: when the channel dimension `C` is not divisible by `num_heads`, the
`WindowAttention` call fails (at the `tf.reshape` of the QKV projection, whose
`3 * num_heads * (C // num_heads)` elements cannot account for all `3 * C`
projected channels) and produces no output tensor: the floored
`head_dim = C // num_heads` never silently truncates an output. -/
theorem GCViT.windowAttentionCall_fails_on_indivisible_heads
    (W numHeads B_ N C : ℕ) (hB : 0 < B_) (hN : 0 < N) (hC : 0 < C)
    (hnh : 0 < numHeads) (hdvd : ¬ numHeads ∣ C) :
    GCViT.windowAttentionCall W numHeads B_ N C = none := by
  simp only [GCViT.windowAttentionCall, GCViT.denseLast, GCViT.reshapeTF]
  simp
  rintro ((heq | hN0) | hB0)
  · exact absurd (⟨C / numHeads, by omega⟩ : numHeads ∣ C) hdvd
  · exact absurd hN0 (by omega)
  · exact absurd hB0 (by omega)

/-- C2 witness: with `num_heads = 4` and `C = 6`, the call produces no output. -/
theorem GCViT.windowAttentionCall_fails_on_indivisible_heads_witness :
    0 < 1 ∧ 0 < 9 ∧ 0 < 6 ∧ 0 < 4 ∧ ¬ (4 ∣ 6) ∧
      GCViT.windowAttentionCall 3 4 1 9 6 = none :=
  ⟨Nat.one_pos, by decide, by decide, by decide, by decide,
    GCViT.windowAttentionCall_fails_on_indivisible_heads 3 4 1 9 6
      Nat.one_pos (by decide) (by decide) (by decide) (by decide)⟩

/-- C4: when the local batch size `B_` is not an exact multiple of the
global-query batch size `B`, the `WindowAttentionGlobal` call fails (the
`B * (B_ // B)` rows produced by `tf.repeat` cannot be reshaped to `B_` rows)
and produces no output tensor. -/
theorem GCViT.windowAttentionGlobalCall_fails_on_ragged_batch
    (W numHeads B_ N C B : ℕ) (hB_ : 0 < B_) (hB : 0 < B) (hN : 0 < N)
    (hC : 0 < C) (hnh : 0 < numHeads) (hBd : ¬ B ∣ B_) :
    GCViT.windowAttentionGlobalCall W numHeads B_ N C B = none := by
  have hlt : B * (B_ / B) < B_ := by
    have h1 : B * (B_ / B) ≤ B_ := by
      rw [mul_comm]
      exact Nat.div_mul_le_self B_ B
    rcases h1.lt_or_eq with h | h
    · exact h
    · exact absurd ⟨B_ / B, h.symm⟩ hBd
  by_cases hdvd : numHeads ∣ C
  · have hmd : numHeads * (C / numHeads) = C := Nat.mul_div_cancel' hdvd
    simp only [GCViT.windowAttentionGlobalCall, GCViT.denseLast, GCViT.reshapeTF]
    simp
    intro _ a1 h1 a2 h2 heq
    rw [hmd] at heq
    have hNC : 0 < N * C := Nat.mul_pos hN hC
    have h2' : B * (B_ / B) * (N * C) < B_ * (N * C) :=
      mul_lt_mul_of_pos_right hlt hNC
    exact absurd heq (Nat.ne_of_lt h2')
  · simp only [GCViT.windowAttentionGlobalCall, GCViT.denseLast, GCViT.reshapeTF]
    simp
    rintro ((heq | hN0) | hB0)
    · exact absurd (⟨C / numHeads, by omega⟩ : numHeads ∣ C) hdvd
    · exact absurd hN0 (by omega)
    · exact absurd hB0 (by omega)

/-- C4 witness: local batch `B_ = 5` with global batch `B = 2` (not a
multiple) produces no output. -/
theorem GCViT.windowAttentionGlobalCall_fails_on_ragged_batch_witness :
    0 < 5 ∧ 0 < 2 ∧ 0 < 9 ∧ 0 < 32 ∧ 0 < 4 ∧ ¬ (2 ∣ 5) ∧
      GCViT.windowAttentionGlobalCall 3 4 5 9 32 2 = none :=
  ⟨by decide, by decide, by decide, by decide, by decide, by decide,
    GCViT.windowAttentionGlobalCall_fails_on_ragged_batch 3 4 5 9 32 2
      (by decide) (by decide) (by decide) (by decide) (by decide) (by decide)⟩

/-- C5: in `WindowAttentionGlobal.call` with `B_ = B * r` windows
(`r = B_ // B` windows per image), the query used for window `w` of image `b`
(batch index `b * r + w`) is the global query slice of image `b` itself,
merely rearranged into heads and multiplied by the scalar scale — no learned
transformation — and only K, V come from the local input, via a dense
projection of width `2 * dim`. -/
theorem GCViT.globalQuery_is_replicated_per_image
    (qGlobal : List (ℕ → ℕ → ℚ)) (r headDim b w : ℕ) (scale : ℚ)
    (hw : w < r) (hb : b < qGlobal.length) :
    (GCViT.globalQueryPath qGlobal r headDim scale)[b * r + w]? =
      (qGlobal[b]?).map
        (fun s => fun h n d => scale * s n (h * headDim + d))
    ∧ ∀ dim : ℕ, GCViT.globalKVUnits dim = 2 * dim := by
  constructor
  · simp only [GCViT.globalQueryPath, List.getElem?_map]
    rw [GCViT.repeatAxis0_getElem qGlobal r b w hw hb]
    cases h : qGlobal[b]? with
    | none => rfl
    | some s =>
      simp [GCViT.reshapeSliceHeads, GCViT.transposeSlice0213]
  · intro dim
    simp [GCViT.globalKVUnits, Nat.mul_comm]

/-- C5 witness: with one image, two windows per image (`r = 2`), the query of
window 1 of image 0 is the image's own global query slice, rearranged. -/
theorem GCViT.globalQuery_is_replicated_per_image_witness :
    1 < 2 ∧ 0 < ([fun n c => (n + c : ℚ)] : List (ℕ → ℕ → ℚ)).length ∧
      ((GCViT.globalQueryPath [fun n c => (n + c : ℚ)] 2 4 (1 / 2))[0 * 2 + 1]? =
        (([fun n c => (n + c : ℚ)] : List (ℕ → ℕ → ℚ))[0]?).map
          (fun s => fun h n d => (1 / 2 : ℚ) * s n (h * 4 + d))
      ∧ ∀ dim : ℕ, GCViT.globalKVUnits dim = 2 * dim) :=
  ⟨by decide, by simp,
    GCViT.globalQuery_is_replicated_per_image
      [fun n c => (n + c : ℚ)] 2 4 0 1 (1 / 2) (by decide) (by simp)⟩

/-- C8: `PatchEmbed.call` is exactly pad-then-conv-then-downsample, returning
the downsampling block's result; moreover, at every output position whose
`3 × 3` receptive field lies inside the padded-in original image
(`1 ≤ i`, `2i + 2 ≤ H`, `1 ≤ j`, `2j + 2 ≤ Wd`), the convolution input pixels
are the original pixels shifted by the one-pixel zero padding. -/
theorem GCViT.patchEmbed_pipeline
    (convDown : (ℕ → ℕ → ℕ → ℚ) → (ℕ → ℕ → ℕ → ℚ))
    (H Wd Cin : ℕ) (w : ℕ → ℕ → ℕ → ℕ → ℚ) (bias : ℕ → ℚ)
    (x : ℕ → ℕ → ℕ → ℚ) (i j d : ℕ)
    (hi1 : 1 ≤ i) (hi2 : 2 * i + 2 ≤ H) (hj1 : 1 ≤ j) (hj2 : 2 * j + 2 ≤ Wd) :
    GCViT.patchEmbedCall convDown H Wd Cin w bias x =
      convDown (GCViT.conv2D3x3s2 Cin w bias (GCViT.zeroPad2D H Wd x))
    ∧ GCViT.conv2D3x3s2 Cin w bias (GCViT.zeroPad2D H Wd x) i j d =
        (∑ ki ∈ Finset.range 3, ∑ kj ∈ Finset.range 3, ∑ c ∈ Finset.range Cin,
          x (2 * i + ki - 1) (2 * j + kj - 1) c * w ki kj c d) + bias d := by
  constructor
  · rfl
  · unfold GCViT.conv2D3x3s2
    congr 1
    refine Finset.sum_congr rfl fun ki hki => ?_
    refine Finset.sum_congr rfl fun kj hkj => ?_
    refine Finset.sum_congr rfl fun c hc => ?_
    have hki3 : ki < 3 := Finset.mem_range.mp hki
    have hkj3 : kj < 3 := Finset.mem_range.mp hkj
    unfold GCViT.zeroPad2D
    rw [if_pos]
    omega

/-- C8 witness: a `6 × 6` image and the interior output position `(1, 1)`. -/
theorem GCViT.patchEmbed_pipeline_witness :
    1 ≤ 1 ∧ 2 * 1 + 2 ≤ 6 ∧
      (GCViT.patchEmbedCall id 6 6 1 GCViT.onesKernel GCViT.zeroBias
          GCViT.testImage =
        id (GCViT.conv2D3x3s2 1 GCViT.onesKernel GCViT.zeroBias
          (GCViT.zeroPad2D 6 6 GCViT.testImage))
      ∧ GCViT.conv2D3x3s2 1 GCViT.onesKernel GCViT.zeroBias
          (GCViT.zeroPad2D 6 6 GCViT.testImage) 1 1 0 =
          (∑ ki ∈ Finset.range 3, ∑ kj ∈ Finset.range 3, ∑ c ∈ Finset.range 1,
            GCViT.testImage (2 * 1 + ki - 1) (2 * 1 + kj - 1) c
              * GCViT.onesKernel ki kj c 0) + GCViT.zeroBias 0) :=
  ⟨le_refl 1, by decide,
    GCViT.patchEmbed_pipeline id 6 6 1 GCViT.onesKernel GCViT.zeroBias
      GCViT.testImage 1 1 0
      (le_refl 1) (by decide) (le_refl 1) (by decide)⟩
